import Mathlib

/-
Shallow embedding of the qa-mvp-e2e-sigga repository, file
cypress/support/BookStore/BookStorePage.js: the HomePage page object
(validateDetailBook) and the Util class (getRandomPhone, getRandonPassword,
getRandonCode, screenshot).  External collaborators (DOM query, visibility
predicate, clock, random numbers) are modelled following section 6 of the
spec: the query collaborator returns zero or more matching elements, the
random collaborator returns uniform values in the interval from 0
inclusive to 1 exclusive (modelled as rationals), the clock returns local
date and time components.
-/

namespace BookStore

/-- The alphabet literal of Util.getRandonCode (BookStorePage.js line 65). -/
def letras : String := "0123456789ABCDEFGHIJKLMNOPQRSTUVWXTZabcdefghiklmnopqrstuvwxyz"

/-- The standard 62-character alphabet 0-9A-Za-z, named by the spec as the
reference point when it describes the letras literal. -/
def standard62 : String := "0123456789ABCDEFGHIJKLMNOPQRSTUVWXYZabcdefghijklmnopqrstuvwxyz"

/-- The alphabet exactly as claim C5 describes it (spec words, for comparison
with the source literal): the standard alphabet with the letter Y omitted and
the letter X appearing twice, once where Y would be expected. -/
def claimedAlphabetC5 : String := "0123456789ABCDEFGHIJKLMNOPQRSTUVWXXZabcdefghijklmnopqrstuvwxyz"

/-- JS s.substring(i, i+1), as used at BookStorePage.js line 69: the one
character at index i, empty when i is negative or at least the length
(JS substring clamps both endpoints into range). -/
def jsSubstringOne (s : String) (i : Int) : List Char :=
  if i < 0 then [] else (s.toList.drop i.toNat).take 1

/-- Loop body of Util.getRandonCode (lines 67-70): starting at loop index i,
run count further iterations, each drawing rnum = floor(random * letras.length)
and appending letras.substring(rnum, rnum+1). -/
def getRandonCodeAux (draws : Nat → ℚ) (i : Nat) : Nat → List Char
  | 0 => []
  | n + 1 =>
      jsSubstringOne letras (Int.floor (draws i * (letras.length : ℚ)))
        ++ getRandonCodeAux draws (i + 1) n

/-- Util.getRandonCode (BookStorePage.js lines 64-72): the for loop runs while
the counter is below tamanho, so a non-positive tamanho runs zero iterations;
the random collaborator is the stream of draws. -/
def getRandonCode (draws : Nat → ℚ) (tamanho : Int) : String :=
  String.mk (getRandonCodeAux draws 0 tamanho.toNat)

/-- Util.getRandonCode called with no argument: the default parameter is 6. -/
def getRandonCodeDefault (draws : Nat → ℚ) : String :=
  getRandonCode draws 6

/-- Util.getRandomPhone (BookStorePage.js lines 56-58):
Math.floor(Math.random() * 99999999999 + 1). -/
def getRandomPhone (r : ℚ) : Int :=
  Int.floor (r * 99999999999 + 1)

/-- The character JS Number.toString(36) uses for the base-36 digit d:
0-9 for values below ten, then lowercase a-z. -/
def js36DigitChar (d : Nat) : Char :=
  if d < 10 then Char.ofNat (48 + d) else Char.ofNat (87 + d)

/-- JS x.toString(36) for x in the interval from 0 inclusive to 1 exclusive,
where the draw x is given by its base-36 fractional digit expansion ds
(empty exactly when x = 0, and with no trailing zero digit, as toString
prints no trailing zeros): the result is "0" for x = 0, otherwise "0."
followed by the digit characters. -/
def jsToString36 (ds : List Nat) : String :=
  if ds = [] then "0" else String.mk ('0' :: '.' :: ds.map js36DigitChar)

/-- JS s.slice(-n): the last n characters, or the whole string when it is
shorter than n (truncated subtraction gives the JS clamp max(len - n, 0)). -/
def jsSliceNeg (s : String) (n : Nat) : String :=
  String.mk (s.toList.drop (s.toList.length - n))

/-- Util.getRandonPassword (BookStorePage.js lines 60-62):
Math.random().toString(36).slice(-7), with the draw of the random
collaborator given by its base-36 fractional digit expansion. -/
def getRandonPassword (ds : List Nat) : String :=
  jsSliceNeg (jsToString36 ds) 7

/-- Decimal digit characters of a non-negative integer, with fuel driving the
structural recursion; fuel at least n + 1 is always enough, since dividing by
ten strictly decreases a positive number. -/
def jsStringAux : Nat → Nat → List Char
  | 0, _ => []
  | fuel + 1, n =>
      if n < 10 then [Char.ofNat (48 + n)]
      else jsStringAux fuel (n / 10) ++ [Char.ofNat (48 + n % 10)]

/-- JS String(n) for a non-negative integer: its decimal representation. -/
def jsString (n : Nat) : List Char :=
  jsStringAux (n + 1) n

/-- JS s.padStart(2, c), as applied to every field but the year in
Util.screenshot (lines 77-82). -/
def jsPadStart2 (c : Char) (s : List Char) : List Char :=
  if s.length < 2 then List.replicate (2 - s.length) c ++ s else s

/-- The clock collaborator of Util.screenshot (spec section 6): local date
and time components; month is getMonth() + 1 as computed on line 78. -/
structure Clock where
  year : Nat
  month : Nat
  day : Nat
  hour : Nat
  minute : Nat
  second : Nat

/-- Util.screenshot (BookStorePage.js lines 74-88): the template literal
y-month-d_hh-mm-ss built from padStart(2, 0)-padded fields, which is the
filename string passed to the screenshot collaborator. -/
def dateTimeCurrent (c : Clock) : String :=
  String.mk (jsString c.year ++ ['-'] ++ jsPadStart2 '0' (jsString c.month)
    ++ ['-'] ++ jsPadStart2 '0' (jsString c.day)
    ++ ['_'] ++ jsPadStart2 '0' (jsString c.hour)
    ++ ['-'] ++ jsPadStart2 '0' (jsString c.minute)
    ++ ['-'] ++ jsPadStart2 '0' (jsString c.second))

/-- Decimal digit test, used to state the timestamp format. -/
def isDigitCh (c : Char) : Bool :=
  decide ('0' ≤ c) && decide (c ≤ '9')

/-- The format YYYY-MM-DD_HH-mm-ss of the spec: four decimal digits, then
five groups of two decimal digits, with the literal separators between. -/
def matchesTimestampPattern (s : String) : Prop :=
  ∃ Y M D hh mm ss : List Char,
    s.toList = Y ++ ['-'] ++ M ++ ['-'] ++ D ++ ['_'] ++ hh ++ ['-'] ++ mm ++ ['-'] ++ ss
    ∧ Y.length = 4 ∧ M.length = 2 ∧ D.length = 2
    ∧ hh.length = 2 ∧ mm.length = 2 ∧ ss.length = 2
    ∧ (∀ ch ∈ Y ++ M ++ D ++ hh ++ mm ++ ss, isDigitCh ch = true)

end BookStore

namespace BookStore

/-- A rendered element of the page, as seen through the DOM query and
visibility collaborators: its text content and whether it is visible. -/
structure Elem where
  text : String
  visible : Bool
deriving DecidableEq

/-- The three query descriptors validateDetailBook passes to cy.contains:
a plain text, the regex ISBN-label pattern of line 36, and the regex
ten-to-thirteen-digit pattern of line 40. -/
inductive Pat
  | textPat (s : String)
  | isbnPat
  | digitsPat
deriving DecidableEq

/-- Case-insensitive character comparison, for the i flag of the regex. -/
def eqCI (a b : Char) : Bool :=
  a.toLower == b.toLower

/-- JS regex word character, for the word boundary in ISBN backslash-b. -/
def isWordChar (c : Char) : Bool :=
  (decide ('A' ≤ c) && decide (c ≤ 'Z')) || (decide ('a' ≤ c) && decide (c ≤ 'z'))
    || (decide ('0' ≤ c) && decide (c ≤ '9')) || c == '_'

/-- Whether the regex of line 36 matches at the head of this suffix: the
letters I S B N case-insensitively, followed by a word boundary (end of
text or a non-word character; the ISBN-colon alternative is subsumed,
since the colon is a non-word character). -/
def isbnAt (t : List Char) : Bool :=
  match t with
  | c1 :: c2 :: c3 :: c4 :: rest =>
      eqCI c1 'I' && eqCI c2 'S' && eqCI c3 'B' && eqCI c4 'N'
        && (match rest with
            | [] => true
            | c :: _ => !isWordChar c)
  | _ => false

/-- Whether the text matches the ISBN-label regex of line 36. -/
def matchesIsbn (s : String) : Bool :=
  s.toList.tails.any isbnAt

/-- Whether the text matches the regex of line 40: it does exactly when some
ten consecutive characters are all decimal digits. -/
def matchesDigits1013 (s : String) : Bool :=
  s.toList.tails.any (fun t => decide (t.length ≥ 10) && (t.take 10).all isDigitCh)

/-- Whether the haystack text contains the needle as a substring, which is
how cy.contains with a plain string selects an element. -/
def strContains (hay needle : String) : Bool :=
  hay.toList.tails.any (fun t => needle.toList.isPrefixOf t)

/-- Whether an element matches a query descriptor. -/
def matchesPat (p : Pat) (e : Elem) : Bool :=
  match p with
  | .textPat s => strContains e.text s
  | .isbnPat => matchesIsbn e.text
  | .digitsPat => matchesDigits1013 e.text

/-- The DOM query collaborator behind cy.contains (spec section 6): it
returns zero or more matching elements; cy.contains selects the first
match, so the result holds at most one element. -/
def containsQuery (page : List Elem) (p : Pat) : List Elem :=
  match page.find? (matchesPat p) with
  | some e => [e]
  | none => []

/-- Outcome of a should-be-visible assertion on a query result: it passes
exactly when the result is non-empty and its element is visible. -/
def assertVisibleOutcome (els : List Elem) : Bool :=
  match els with
  | [] => false
  | e :: _ => e.visible

/-- The observable commands validateDetailBook issues: a contains query
asserted visible (with its optional timeout option), the bare contains
query of line 36, and the wrapped-result visibility assertion of line 38. -/
inductive Action
  | assertContainsVisible (p : Pat) (timeout : Option Nat)
  | queryContains (p : Pat)
  | assertWrappedVisible (els : List Elem)
deriving DecidableEq

/-- HomePage.validateDetailBook (BookStorePage.js lines 29-43), run against a
static page: the trace of commands the runner executes and the overall
outcome.  Line 32 asserts the title text visible with a 10000 ms timeout
option; line 33 asserts the Author text visible; line 36 queries the
ISBN-label pattern and hands the result to the callback, which asserts the
wrapped result visible when its length is non-zero (lines 37-38) and
otherwise asserts the digit pattern visible (line 40).  A failed assertion
aborts the remaining commands, as the test runner does. -/
def validateDetailBook (page : List Elem) (title : String) : List Action × Bool :=
  let a1 := Action.assertContainsVisible (Pat.textPat title) (some 10000)
  let ok1 := assertVisibleOutcome (containsQuery page (Pat.textPat title))
  if !ok1 then ([a1], false) else
  let a2 := Action.assertContainsVisible (Pat.textPat "Author") none
  let ok2 := assertVisibleOutcome (containsQuery page (Pat.textPat "Author"))
  if !ok2 then ([a1, a2], false) else
  let els := containsQuery page Pat.isbnPat
  if els.length ≠ 0 then
    ([a1, a2, Action.queryContains Pat.isbnPat, Action.assertWrappedVisible els],
      assertVisibleOutcome els)
  else
    ([a1, a2, Action.queryContains Pat.isbnPat,
        Action.assertContainsVisible Pat.digitsPat none],
      assertVisibleOutcome (containsQuery page Pat.digitsPat))

/-- Result of a polling assertion: success or TimeoutExceeded, each carrying
the elapsed time at which it was reported. -/
inductive PollResult
  | success (time : Nat)
  | timeoutExceeded (time : Nat)
deriving DecidableEq

/-- Modelled from the spec: PollingAssertion (spec section 4.1) is not under
src/, only its callers are.  Repeatedly evaluate the predicate at the
current elapsed time; if it holds, return success; if not, sleep one
polling interval and, once the elapsed time exceeds the timeout, fail with
TimeoutExceeded; otherwise retry.  The fuel argument bounds the recursion
and pollingAssertion supplies enough of it for any positive interval. -/
def pollAux (pred : Nat → Bool) (timeout interval : Nat) : Nat → Nat → Option PollResult
  | 0, _ => none
  | fuel + 1, elapsed =>
      if pred elapsed then some (PollResult.success elapsed)
      else if timeout < elapsed + interval then
        some (PollResult.timeoutExceeded (elapsed + interval))
      else pollAux pred timeout interval fuel (elapsed + interval)

/-- Modelled from the spec: a PollingAssertion evaluation starts with zero
elapsed time. -/
def pollingAssertion (pred : Nat → Bool) (timeout interval : Nat) : Option PollResult :=
  pollAux pred timeout interval (timeout + 2) 0

/-- Concrete page for the counterexample to claim C1: title and Author
visible, no ISBN-labeled element, and the only element matching the
ten-to-thirteen-digit pattern exists but is not visible. -/
def c1Page : List Elem :=
  [⟨"Harry Potter", true⟩, ⟨"Author", true⟩, ⟨"123456789012", false⟩]

/-- Concrete page for the amended claim C1: same as c1Page except the
digit-pattern element is visible. -/
def c1PageVisible : List Elem :=
  [⟨"Harry Potter", true⟩, ⟨"Author", true⟩, ⟨"123456789012", true⟩]

/-- Concrete page for the witness of claim C2: an ISBN-labeled element is
present and visible. -/
def c2Page : List Elem :=
  [⟨"Book Title", true⟩, ⟨"Author", true⟩, ⟨"ISBN: 9781234567897", true⟩]

/-- Concrete page for the witness of claim C3: title and Author visible,
and neither the ISBN-label pattern nor the digit pattern matches anything. -/
def c3Page : List Elem :=
  [⟨"Harry Potter", true⟩, ⟨"Author", true⟩]

end BookStore

namespace BookStore

theorem js36DigitChar_range :
    ∀ d < 36, ('0' ≤ js36DigitChar d ∧ js36DigitChar d ≤ '9')
      ∨ ('a' ≤ js36DigitChar d ∧ js36DigitChar d ≤ 'z') := by
  decide

theorem jsSubstringOne_spec (s : String) (i : Int) (h0 : 0 ≤ i)
    (h1 : i.toNat < s.toList.length) :
    (jsSubstringOne s i).length = 1 ∧ ∀ c ∈ jsSubstringOne s i, c ∈ s.toList := by
  unfold jsSubstringOne
  rw [if_neg (by omega)]
  constructor
  · rw [List.length_take, List.length_drop]
    omega
  · intro c hc
    exact List.mem_of_mem_drop (List.mem_of_mem_take hc)

theorem getRandonCodeAux_spec (draws : Nat → ℚ) (h : ∀ i, 0 ≤ draws i ∧ draws i < 1) :
    ∀ n i, (getRandonCodeAux draws i n).length = n
      ∧ ∀ c ∈ getRandonCodeAux draws i n, c ∈ letras.toList := by
  intro n
  induction n with
  | zero => intro i; exact ⟨rfl, fun c hc => absurd hc (List.not_mem_nil c)⟩
  | succ n ih =>
    intro i
    obtain ⟨hd0, hd1⟩ := h i
    have hL61 : letras.length = 61 := by decide
    have hL : (letras.length : ℚ) = 61 := by rw [hL61]; norm_num
    have hfl0 : 0 ≤ Int.floor (draws i * (letras.length : ℚ)) := by
      apply Int.floor_nonneg.mpr
      positivity
    have hfl1 : Int.floor (draws i * (letras.length : ℚ)) < 61 := by
      apply Int.floor_lt.mpr
      rw [hL]
      push_cast
      nlinarith
    have hlen : (Int.floor (draws i * (letras.length : ℚ))).toNat < letras.toList.length := by
      have : letras.toList.length = 61 := by decide
      omega
    obtain ⟨hs1, hs2⟩ := jsSubstringOne_spec letras _ hfl0 hlen
    obtain ⟨ih1, ih2⟩ := ih (i + 1)
    constructor
    · simp only [getRandonCodeAux, List.length_append, hs1, ih1]
      omega
    · intro c hc
      simp only [getRandonCodeAux] at hc
      rcases List.mem_append.mp hc with hc | hc
      · exact hs2 c hc
      · exact ih2 c hc

/-- Claim C6: for the random collaborator drawing in the interval from 0
inclusive to 1 exclusive, getRandonCode returns a string of exactly n
characters for every non-negative integer n, each character taken from the
alphabet literal, and getRandonCode with no argument returns exactly 6
characters. -/
theorem getRandonCode_length (draws : Nat → ℚ) (h : ∀ i, 0 ≤ draws i ∧ draws i < 1)
    (n : Int) (hn : 0 ≤ n) :
    ((getRandonCode draws n).length : Int) = n
    ∧ (∀ c ∈ (getRandonCode draws n).toList, c ∈ letras.toList)
    ∧ (getRandonCodeDefault draws).length = 6 := by
  obtain ⟨hl, hm⟩ := getRandonCodeAux_spec draws h n.toNat 0
  refine ⟨?_, ?_, ?_⟩
  · rw [show (getRandonCode draws n).length = (getRandonCodeAux draws 0 n.toNat).length from rfl]
    rw [hl]
    exact Int.toNat_of_nonneg hn
  · intro c hc
    exact hm c hc
  · rw [show (getRandonCodeDefault draws).length
        = (getRandonCodeAux draws 0 (6 : Int).toNat).length from rfl]
    exact (getRandonCodeAux_spec draws h (6 : Int).toNat 0).1

/-- Witness for C6 at the constant draw one half and the length 4. -/
theorem getRandonCode_length_witness :
    ((getRandonCode (fun _ => (1 : ℚ)/2) 4).length : Int) = 4
    ∧ (getRandonCodeDefault (fun _ => (1 : ℚ)/2)).length = 6 := by
  have h := getRandonCode_length (fun _ => (1 : ℚ)/2) (fun i => by norm_num) 4 (by norm_num)
  exact ⟨h.1, h.2.2⟩

/-- Claim C10: for every non-positive integer argument the for loop of
getRandonCode runs zero iterations, so the result is the empty string, for
any stream of draws. -/
theorem getRandonCode_nonpos (draws : Nat → ℚ) (n : Int) (hn : n ≤ 0) :
    getRandonCode draws n = "" := by
  unfold getRandonCode
  rw [Int.toNat_of_nonpos hn]
  rfl

/-- Witness for C10 at the argument minus three and the constant draw zero. -/
theorem getRandonCode_nonpos_witness :
    getRandonCode (fun _ => (0 : ℚ)) (-3) = "" :=
  getRandonCode_nonpos (fun _ => (0 : ℚ)) (-3) (by norm_num)

/-- Claim C7: for every draw in the interval from 0 inclusive to 1 exclusive,
getRandomPhone returns an integer between 1 and 99999999999 inclusive. -/
theorem getRandomPhone_range (r : ℚ) (h0 : 0 ≤ r) (h1 : r < 1) :
    1 ≤ getRandomPhone r ∧ getRandomPhone r ≤ 99999999999 := by
  unfold getRandomPhone
  constructor
  · apply Int.le_floor.mpr
    push_cast
    nlinarith
  · have hlt : Int.floor (r * 99999999999 + 1) < 100000000000 := by
      apply Int.floor_lt.mpr
      push_cast
      nlinarith
    omega

/-- Witness for C7 at the draw one half. -/
theorem getRandomPhone_range_witness :
    1 ≤ getRandomPhone (1/2) ∧ getRandomPhone (1/2) ≤ 99999999999 :=
  getRandomPhone_range (1/2) (by norm_num) (by norm_num)

end BookStore

namespace BookStore

/-- Counterexample to claim C4: the draw one half is a reachable value of the
random collaborator whose base-36 expansion is the single digit 18, so
toString(36) gives "0.i"; getRandonPassword then returns a string of length
3, not 7, and that string even holds a full stop, a character outside
0-9a-z. -/
theorem getRandonPassword_short_draw :
    (∀ d ∈ [18], d < 36) ∧ ([18] : List Nat) ≠ [] ∧ ([18] : List Nat).getLast? ≠ some 0
    ∧ getRandonPassword [18] = "0.i"
    ∧ (getRandonPassword [18]).length ≠ 7
    ∧ '.' ∈ (getRandonPassword [18]).toList
    ∧ ¬ (('0' ≤ '.' ∧ '.' ≤ '9') ∨ ('a' ≤ '.' ∧ '.' ≤ 'z')) := by
  decide

/-- Claim C4 as amended: getRandonPassword returns at most 7 characters, and
whenever the base-36 fractional expansion of the draw has at least 7
digits, it returns exactly 7 characters, each from 0-9a-z. -/
theorem getRandonPassword_length7 (ds : List Nat) (hd : ∀ d ∈ ds, d < 36)
    (hlen : 7 ≤ ds.length) :
    (∀ es : List Nat, (getRandonPassword es).length ≤ 7)
    ∧ (getRandonPassword ds).length = 7
    ∧ ∀ c ∈ (getRandonPassword ds).toList,
        (('0' ≤ c ∧ c ≤ '9') ∨ ('a' ≤ c ∧ c ≤ 'z')) := by
  have hmk : ∀ l : List Char, (String.mk l).length = l.length := fun l => rfl
  have hbound : ∀ es : List Nat, (getRandonPassword es).length ≤ 7 := by
    intro es
    unfold getRandonPassword jsSliceNeg
    rw [hmk, List.length_drop]
    omega
  have hne : ds ≠ [] := by
    intro hc
    rw [hc] at hlen
    simp at hlen
  have hts : (jsToString36 ds).toList = '0' :: '.' :: ds.map js36DigitChar := by
    unfold jsToString36
    rw [if_neg hne]
    rfl
  have hdrop : (jsToString36 ds).toList.drop ((jsToString36 ds).toList.length - 7)
      = (ds.map js36DigitChar).drop (ds.length - 7) := by
    rw [hts]
    simp only [List.length_cons, List.length_map]
    rw [show ds.length + 1 + 1 - 7 = (ds.length - 7) + 2 from by omega]
    rfl
  refine ⟨hbound, ?_, ?_⟩
  · unfold getRandonPassword jsSliceNeg
    rw [hmk, hdrop, List.length_drop, List.length_map]
    omega
  · intro c hc
    have hc2 : c ∈ (jsToString36 ds).toList.drop ((jsToString36 ds).toList.length - 7) := hc
    rw [hdrop] at hc2
    obtain ⟨d, hdmem, rfl⟩ := List.mem_map.mp (List.mem_of_mem_drop hc2)
    exact js36DigitChar_range d (hd d hdmem)

/-- Witness for the amended C4 at the seven-digit expansion 1 2 3 4 5 6 7. -/
theorem getRandonPassword_length7_witness :
    (∀ es : List Nat, (getRandonPassword es).length ≤ 7)
    ∧ (getRandonPassword [1, 2, 3, 4, 5, 6, 7]).length = 7
    ∧ ∀ c ∈ (getRandonPassword [1, 2, 3, 4, 5, 6, 7]).toList,
        (('0' ≤ c ∧ c ≤ '9') ∨ ('a' ≤ c ∧ c ≤ 'z')) :=
  getRandonPassword_length7 [1, 2, 3, 4, 5, 6, 7] (by decide) (by decide)

/-- Counterexample to claim C5: the letras literal is not the standard
alphabet with Y omitted and X doubled; X occurs exactly once in it, while T
occurs twice, lowercase j does not occur at all, and the whole literal has
61 characters rather than 62. -/
theorem letras_not_claimC5 :
    letras ≠ claimedAlphabetC5
    ∧ letras.toList.count 'X' = 1
    ∧ letras.toList.count 'T' = 2
    ∧ letras.toList.count 'j' = 0
    ∧ letras.length = 61 := by
  decide

/-- Claim C5 as amended: the letras literal is the standard 62-character
alphabet with the letter Y replaced by a second T and with lowercase j
omitted, 61 characters in all; every character getRandonCode emits lies in
that literal, the emitted index is floor of the draw times the literal
length, and every index of the literal is reached by some draw. -/
theorem letras_characterization (draws : Nat → ℚ) (h : ∀ i, 0 ≤ draws i ∧ draws i < 1) :
    letras.toList
      = (standard62.toList.map (fun c => if c = 'Y' then 'T' else c)).filter (fun c => c != 'j')
    ∧ letras.length = 61
    ∧ (∀ n : Int, ∀ c ∈ (getRandonCode draws n).toList, c ∈ letras.toList)
    ∧ (∀ k : Nat, k < letras.length →
        ∃ q : ℚ, 0 ≤ q ∧ q < 1 ∧ Int.floor (q * (letras.length : ℚ)) = (k : Int)) := by
  refine ⟨by decide, by decide, ?_, ?_⟩
  · intro n c hc
    exact (getRandonCodeAux_spec draws h n.toNat 0).2 c hc
  · intro k hk
    have hL61 : letras.length = 61 := by decide
    refine ⟨(k : ℚ) / 61, by positivity, ?_, ?_⟩
    · rw [div_lt_one (by norm_num)]
      exact_mod_cast (by omega : k < 61)
    · rw [hL61]
      push_cast
      rw [div_mul_cancel₀ (h := by norm_num)]
      exact Int.floor_natCast k

/-- Witness for the amended C5 at the constant draw zero. -/
theorem letras_characterization_witness :
    letras.toList
      = (standard62.toList.map (fun c => if c = 'Y' then 'T' else c)).filter (fun c => c != 'j')
    ∧ letras.length = 61
    ∧ (∀ n : Int, ∀ c ∈ (getRandonCode (fun _ => (0 : ℚ)) n).toList, c ∈ letras.toList)
    ∧ (∀ k : Nat, k < letras.length →
        ∃ q : ℚ, 0 ≤ q ∧ q < 1 ∧ Int.floor (q * (letras.length : ℚ)) = (k : Int)) :=
  letras_characterization (fun _ => (0 : ℚ)) (fun i => by norm_num)

end BookStore

namespace BookStore

/-- Counterexample to claim C1: on the page c1Page the title and Author are
visible, no element matches the ISBN-label pattern, and an element matching
the ten-to-thirteen-digit pattern exists, yet validateDetailBook fails,
because that element is not visible. -/
theorem validateDetailBook_hidden_digits :
    containsQuery c1Page Pat.isbnPat = []
    ∧ c1Page.filter (matchesPat Pat.digitsPat) ≠ []
    ∧ assertVisibleOutcome (containsQuery c1Page (Pat.textPat "Harry Potter")) = true
    ∧ assertVisibleOutcome (containsQuery c1Page (Pat.textPat "Author")) = true
    ∧ (validateDetailBook c1Page "Harry Potter").2 = false := by
  decide

/-- Claim C1 as amended: whenever no element matches the ISBN-label pattern
and the element cy.contains selects for the digit pattern is visible (the
title and the Author text being visible as well), validateDetailBook
succeeds, and its last executed command is the fallback assertion on the
digit pattern rather than the ISBN assertion. -/
theorem validateDetailBook_fallback (page : List Elem) (title : String)
    (hIsbn : containsQuery page Pat.isbnPat = [])
    (hDig : assertVisibleOutcome (containsQuery page Pat.digitsPat) = true)
    (h1 : assertVisibleOutcome (containsQuery page (Pat.textPat title)) = true)
    (h2 : assertVisibleOutcome (containsQuery page (Pat.textPat "Author")) = true) :
    (validateDetailBook page title).2 = true
    ∧ (validateDetailBook page title).1 =
        [Action.assertContainsVisible (Pat.textPat title) (some 10000),
         Action.assertContainsVisible (Pat.textPat "Author") none,
         Action.queryContains Pat.isbnPat,
         Action.assertContainsVisible Pat.digitsPat none] := by
  constructor <;> simp [validateDetailBook, h1, h2, hIsbn, hDig]

/-- Witness for the amended C1: the same page as the counterexample but with
the digit-pattern element visible. -/
theorem validateDetailBook_fallback_witness :
    (validateDetailBook c1PageVisible "Harry Potter").2 = true
    ∧ (validateDetailBook c1PageVisible "Harry Potter").1 =
        [Action.assertContainsVisible (Pat.textPat "Harry Potter") (some 10000),
         Action.assertContainsVisible (Pat.textPat "Author") none,
         Action.queryContains Pat.isbnPat,
         Action.assertContainsVisible Pat.digitsPat none] :=
  validateDetailBook_fallback c1PageVisible "Harry Potter"
    (by decide) (by decide) (by decide) (by decide)

/-- Claim C2: when its first two assertions pass, validateDetailBook executes,
in order, the title visibility assertion with the 10000 ms timeout, the
Author visibility assertion, and one single ISBN-label query, and then
exactly one of two mutually exclusive assertions, selected by the
cardinality of the query result: the wrapped-result assertion when the
query matched, the bare digit-pattern assertion when it was empty. -/
theorem validateDetailBook_trace (page : List Elem) (title : String)
    (h1 : assertVisibleOutcome (containsQuery page (Pat.textPat title)) = true)
    (h2 : assertVisibleOutcome (containsQuery page (Pat.textPat "Author")) = true) :
    ∃ b : Action,
      (validateDetailBook page title).1 =
        [Action.assertContainsVisible (Pat.textPat title) (some 10000),
         Action.assertContainsVisible (Pat.textPat "Author") none,
         Action.queryContains Pat.isbnPat, b]
      ∧ ((containsQuery page Pat.isbnPat).length ≠ 0 →
          b = Action.assertWrappedVisible (containsQuery page Pat.isbnPat)
          ∧ (validateDetailBook page title).2
              = assertVisibleOutcome (containsQuery page Pat.isbnPat))
      ∧ ((containsQuery page Pat.isbnPat).length = 0 →
          b = Action.assertContainsVisible Pat.digitsPat none
          ∧ (validateDetailBook page title).2
              = assertVisibleOutcome (containsQuery page Pat.digitsPat))
      ∧ Action.assertWrappedVisible (containsQuery page Pat.isbnPat)
          ≠ Action.assertContainsVisible Pat.digitsPat none := by
  by_cases hq : (containsQuery page Pat.isbnPat).length = 0
  · refine ⟨Action.assertContainsVisible Pat.digitsPat none, ?_, ?_, ?_, by simp⟩
    all_goals simp [validateDetailBook, h1, h2, hq]
  · refine ⟨Action.assertWrappedVisible (containsQuery page Pat.isbnPat), ?_, ?_, ?_, by simp⟩
    all_goals simp [validateDetailBook, h1, h2, hq]

/-- Witness for C2 on the page c2Page, which carries a visible ISBN label. -/
theorem validateDetailBook_trace_witness :
    ∃ b : Action,
      (validateDetailBook c2Page "Book Title").1 =
        [Action.assertContainsVisible (Pat.textPat "Book Title") (some 10000),
         Action.assertContainsVisible (Pat.textPat "Author") none,
         Action.queryContains Pat.isbnPat, b]
      ∧ ((containsQuery c2Page Pat.isbnPat).length ≠ 0 →
          b = Action.assertWrappedVisible (containsQuery c2Page Pat.isbnPat)
          ∧ (validateDetailBook c2Page "Book Title").2
              = assertVisibleOutcome (containsQuery c2Page Pat.isbnPat))
      ∧ ((containsQuery c2Page Pat.isbnPat).length = 0 →
          b = Action.assertContainsVisible Pat.digitsPat none
          ∧ (validateDetailBook c2Page "Book Title").2
              = assertVisibleOutcome (containsQuery c2Page Pat.digitsPat))
      ∧ Action.assertWrappedVisible (containsQuery c2Page Pat.isbnPat)
          ≠ Action.assertContainsVisible Pat.digitsPat none :=
  validateDetailBook_trace c2Page "Book Title" (by decide) (by decide)

/-- Claim C3: when the title and Author are visible but both the ISBN-label
query and the digit-pattern query come back empty, validateDetailBook
fails rather than passing silently. -/
theorem validateDetailBook_both_empty (page : List Elem) (title : String)
    (h1 : assertVisibleOutcome (containsQuery page (Pat.textPat title)) = true)
    (h2 : assertVisibleOutcome (containsQuery page (Pat.textPat "Author")) = true)
    (hIsbn : containsQuery page Pat.isbnPat = [])
    (hDig : containsQuery page Pat.digitsPat = []) :
    (validateDetailBook page title).2 = false := by
  have h3 : assertVisibleOutcome ([] : List Elem) = false := rfl
  simp [validateDetailBook, h1, h2, hIsbn, hDig, h3]

/-- Witness for C3 on the page c3Page, which has no ISBN label and no digit
sequence at all. -/
theorem validateDetailBook_both_empty_witness :
    (validateDetailBook c3Page "Harry Potter").2 = false :=
  validateDetailBook_both_empty c3Page "Harry Potter"
    (by decide) (by decide) (by decide) (by decide)

end BookStore

namespace BookStore

theorem digitChar_isDigit : ∀ m < 10, isDigitCh (Char.ofNat (48 + m)) = true := by
  decide

theorem jsStringAux_digit : ∀ fuel n, ∀ ch ∈ jsStringAux fuel n, isDigitCh ch = true := by
  intro fuel
  induction fuel with
  | zero => intro n ch hch; exact absurd hch (List.not_mem_nil ch)
  | succ f ih =>
    intro n ch hch
    simp only [jsStringAux] at hch
    by_cases h : n < 10
    · rw [if_pos h] at hch
      rw [List.mem_singleton] at hch
      subst hch
      exact digitChar_isDigit n h
    · rw [if_neg h] at hch
      rcases List.mem_append.mp hch with hc | hc
      · exact ih (n / 10) ch hc
      · rw [List.mem_singleton] at hc
        subst hc
        exact digitChar_isDigit (n % 10) (Nat.mod_lt n (by omega))

theorem jsStringAux_len1 (fuel n : Nat) (hf : 0 < fuel) (h : n < 10) :
    (jsStringAux fuel n).length = 1 := by
  obtain ⟨f, rfl⟩ : ∃ f, fuel = f + 1 := ⟨fuel - 1, by omega⟩
  simp only [jsStringAux]
  rw [if_pos h]
  rfl

theorem jsStringAux_len2 (fuel n : Nat) (hf : 2 ≤ fuel) (hl : 10 ≤ n) (hu : n < 100) :
    (jsStringAux fuel n).length = 2 := by
  obtain ⟨f, rfl⟩ : ∃ f, fuel = f + 1 := ⟨fuel - 1, by omega⟩
  simp only [jsStringAux]
  rw [if_neg (by omega), List.length_append,
    jsStringAux_len1 f (n / 10) (by omega) (by omega)]
  rfl

theorem jsStringAux_len3 (fuel n : Nat) (hf : 3 ≤ fuel) (hl : 100 ≤ n) (hu : n < 1000) :
    (jsStringAux fuel n).length = 3 := by
  obtain ⟨f, rfl⟩ : ∃ f, fuel = f + 1 := ⟨fuel - 1, by omega⟩
  simp only [jsStringAux]
  rw [if_neg (by omega), List.length_append,
    jsStringAux_len2 f (n / 10) (by omega) (by omega) (by omega)]
  rfl

theorem jsStringAux_len4 (fuel n : Nat) (hf : 4 ≤ fuel) (hl : 1000 ≤ n) (hu : n < 10000) :
    (jsStringAux fuel n).length = 4 := by
  obtain ⟨f, rfl⟩ : ∃ f, fuel = f + 1 := ⟨fuel - 1, by omega⟩
  simp only [jsStringAux]
  rw [if_neg (by omega), List.length_append,
    jsStringAux_len3 f (n / 10) (by omega) (by omega) (by omega)]
  rfl

theorem jsString_len4 (y : Nat) (hl : 1000 ≤ y) (hu : y ≤ 9999) :
    (jsString y).length = 4 :=
  jsStringAux_len4 (y + 1) y (by omega) hl (by omega)

theorem jsPadStart2_len (l : List Char) (h : l.length = 1 ∨ l.length = 2) :
    (jsPadStart2 '0' l).length = 2 := by
  unfold jsPadStart2
  rcases h with h | h
  · rw [if_pos (by omega)]
    simp [h]
  · rw [if_neg (by omega)]
    exact h

theorem jsPadStart2_mem (l : List Char) (ch : Char) (hch : ch ∈ jsPadStart2 '0' l) :
    ch = '0' ∨ ch ∈ l := by
  unfold jsPadStart2 at hch
  by_cases h : l.length < 2
  · rw [if_pos h] at hch
    rcases List.mem_append.mp hch with hc | hc
    · exact Or.inl (List.eq_of_mem_replicate hc)
    · exact Or.inr hc
  · rw [if_neg h] at hch
    exact Or.inr hch

theorem padField_len (m : Nat) (hm : m ≤ 99) :
    (jsPadStart2 '0' (jsString m)).length = 2 := by
  apply jsPadStart2_len
  by_cases h : m < 10
  · exact Or.inl (jsStringAux_len1 (m + 1) m (by omega) h)
  · exact Or.inr (jsStringAux_len2 (m + 1) m (by omega) (by omega) (by omega))

theorem padField_digit (m : Nat) (ch : Char) (hch : ch ∈ jsPadStart2 '0' (jsString m)) :
    isDigitCh ch = true := by
  rcases jsPadStart2_mem _ ch hch with rfl | hc
  · decide
  · exact jsStringAux_digit (m + 1) m ch hc

/-- Claim C8: for every valid clock reading (calendar field ranges, with a
four-digit year as the clock collaborator reports in the era the suite
runs), the filename string Util.screenshot builds holds no colon and no
space and matches YYYY-MM-DD_HH-mm-ss with every field after the year
zero-padded to two digits. -/
theorem dateTimeCurrent_format (c : Clock)
    (hy1 : 1000 ≤ c.year) (hy2 : c.year ≤ 9999)
    (hmo1 : 1 ≤ c.month) (hmo2 : c.month ≤ 12)
    (hd1 : 1 ≤ c.day) (hd2 : c.day ≤ 31)
    (hhr : c.hour ≤ 23) (hmi : c.minute ≤ 59) (hse : c.second ≤ 59) :
    (':' ∉ (dateTimeCurrent c).toList ∧ ' ' ∉ (dateTimeCurrent c).toList)
    ∧ matchesTimestampPattern (dateTimeCurrent c) := by
  have hmem : ∀ ch ∈ (dateTimeCurrent c).toList,
      isDigitCh ch = true ∨ ch = '-' ∨ ch = '_' := by
    intro ch hch
    have hch2 : ch ∈ jsString c.year ++ ['-'] ++ jsPadStart2 '0' (jsString c.month)
        ++ ['-'] ++ jsPadStart2 '0' (jsString c.day)
        ++ ['_'] ++ jsPadStart2 '0' (jsString c.hour)
        ++ ['-'] ++ jsPadStart2 '0' (jsString c.minute)
        ++ ['-'] ++ jsPadStart2 '0' (jsString c.second) := hch
    simp only [List.append_assoc, List.mem_append, List.mem_singleton] at hch2
    rcases hch2 with hc | rfl | hc | rfl | hc | rfl | hc | rfl | hc | rfl | hc
    · exact Or.inl (jsStringAux_digit _ _ ch hc)
    · exact Or.inr (Or.inl rfl)
    · exact Or.inl (padField_digit _ ch hc)
    · exact Or.inr (Or.inl rfl)
    · exact Or.inl (padField_digit _ ch hc)
    · exact Or.inr (Or.inr rfl)
    · exact Or.inl (padField_digit _ ch hc)
    · exact Or.inr (Or.inl rfl)
    · exact Or.inl (padField_digit _ ch hc)
    · exact Or.inr (Or.inl rfl)
    · exact Or.inl (padField_digit _ ch hc)
  refine ⟨⟨?_, ?_⟩, ?_⟩
  · intro h
    rcases hmem ':' h with h1 | h1 | h1
    · exact absurd h1 (by decide)
    · exact absurd h1 (by decide)
    · exact absurd h1 (by decide)
  · intro h
    rcases hmem ' ' h with h1 | h1 | h1
    · exact absurd h1 (by decide)
    · exact absurd h1 (by decide)
    · exact absurd h1 (by decide)
  · refine ⟨jsString c.year, jsPadStart2 '0' (jsString c.month),
      jsPadStart2 '0' (jsString c.day), jsPadStart2 '0' (jsString c.hour),
      jsPadStart2 '0' (jsString c.minute), jsPadStart2 '0' (jsString c.second),
      rfl, jsString_len4 c.year hy1 hy2,
      padField_len c.month (by omega), padField_len c.day (by omega),
      padField_len c.hour (by omega), padField_len c.minute (by omega),
      padField_len c.second (by omega), ?_⟩
    intro ch hch
    simp only [List.append_assoc, List.mem_append] at hch
    rcases hch with hc | hc | hc | hc | hc | hc
    · exact jsStringAux_digit _ _ ch hc
    · exact padField_digit _ ch hc
    · exact padField_digit _ ch hc
    · exact padField_digit _ ch hc
    · exact padField_digit _ ch hc
    · exact padField_digit _ ch hc

/-- Witness for C8 at a concrete clock reading. -/
theorem dateTimeCurrent_format_witness :
    ((':' ∉ (dateTimeCurrent ⟨2026, 10, 12, 9, 5, 3⟩).toList
      ∧ ' ' ∉ (dateTimeCurrent ⟨2026, 10, 12, 9, 5, 3⟩).toList)
    ∧ matchesTimestampPattern (dateTimeCurrent ⟨2026, 10, 12, 9, 5, 3⟩)) :=
  dateTimeCurrent_format ⟨2026, 10, 12, 9, 5, 3⟩ (by norm_num) (by norm_num)
    (by norm_num) (by norm_num) (by norm_num) (by norm_num) (by norm_num)
    (by norm_num) (by norm_num)

theorem pollAux_never (pred : Nat → Bool) (timeout interval : Nat)
    (hp : ∀ n, pred n = false) (hi : 0 < interval) :
    ∀ fuel elapsed, elapsed ≤ timeout → timeout + 1 ≤ elapsed + fuel →
      ∃ F, pollAux pred timeout interval fuel elapsed
            = some (PollResult.timeoutExceeded F)
        ∧ timeout < F ∧ F ≤ timeout + interval := by
  intro fuel
  induction fuel with
  | zero => intro elapsed h1 h2; omega
  | succ f ih =>
    intro elapsed h1 h2
    by_cases hto : timeout < elapsed + interval
    · refine ⟨elapsed + interval, ?_, hto, by omega⟩
      simp only [pollAux, hp elapsed]
      rw [if_neg Bool.false_ne_true, if_pos hto]
    · obtain ⟨F, hF, hb1, hb2⟩ := ih (elapsed + interval) (by omega) (by omega)
      refine ⟨F, ?_, hb1, hb2⟩
      simp only [pollAux, hp elapsed]
      rw [if_neg Bool.false_ne_true, if_neg hto]
      exact hF

/-- Claim C9: for every predicate that never becomes true and every positive
polling interval, the polling assertion fails with TimeoutExceeded, at an
elapsed time no earlier than the timeout and no later than the timeout
plus one polling interval. -/
theorem pollingAssertion_timeout (pred : Nat → Bool) (timeout interval : Nat)
    (hp : ∀ n, pred n = false) (hi : 0 < interval) :
    ∃ F, pollingAssertion pred timeout interval
          = some (PollResult.timeoutExceeded F)
      ∧ timeout ≤ F ∧ F ≤ timeout + interval := by
  obtain ⟨F, hF, h1, h2⟩ :=
    pollAux_never pred timeout interval hp hi (timeout + 2) 0 (by omega) (by omega)
  exact ⟨F, hF, by omega, h2⟩

/-- Witness for C9: the constantly false predicate, timeout 10, interval 3. -/
theorem pollingAssertion_timeout_witness :
    ∃ F, pollingAssertion (fun _ => false) 10 3
          = some (PollResult.timeoutExceeded F)
      ∧ 10 ≤ F ∧ F ≤ 10 + 3 :=
  pollingAssertion_timeout (fun _ => false) 10 3 (fun _ => rfl) (by norm_num)

end BookStore
